import Mathlib

set_option maxRecDepth 4000

/-!
Shallow embedding of the daily-dewey-api service (src/app.py, src/ddc_helpers.py).

Machine integers are modelled as `Nat` with explicit reduction modulo 2^32 where
the 32-bit MD5 arithmetic overflows.  Bytes are `Nat` values below 256.
-/

/-- Addition of two 32-bit words, reduced modulo 2^32. -/
def add32 (a b : Nat) : Nat := (a + b) % 4294967296

/-- Bitwise complement of a 32-bit word. -/
def not32 (x : Nat) : Nat := Nat.xor x 4294967295

/-- Left-rotation of a 32-bit word by `s` bits. -/
def rotl32 (x s : Nat) : Nat :=
  Nat.lor ((Nat.shiftLeft x s) % 4294967296) (Nat.shiftRight (x % 4294967296) (32 - s))

/-- UTF-8 encoding of a single character as a list of bytes
(`date_str.encode()` in `get_daily_section`). -/
def utf8EncodeChar (c : Char) : List Nat :=
  let n := c.toNat
  if n < 128 then [n]
  else if n < 2048 then [192 + n / 64, 128 + n % 64]
  else if n < 65536 then [224 + n / 4096, 128 + (n / 64) % 64, 128 + n % 64]
  else [240 + n / 262144, 128 + (n / 4096) % 64, 128 + (n / 64) % 64, 128 + n % 64]

/-- UTF-8 encoding of a string as a list of bytes. -/
def strBytes (s : String) : List Nat := s.data.flatMap utf8EncodeChar

/-- The 64 MD5 sine-derived round constants (RFC 1321). -/
def md5K : List Nat :=
  [3614090360, 3905402710, 606105819, 3250441966, 4118548399, 1200080426,
   2821735955, 4249261313, 1770035416, 2336552879, 4294925233, 2304563134,
   1804603682, 4254626195, 2792965006, 1236535329, 4129170786, 3225465664,
   643717713, 3921069994, 3593408605, 38016083, 3634488961, 3889429448,
   568446438, 3275163606, 4107603335, 1163531501, 2850285829, 4243563512,
   1735328473, 2368359562, 4294588738, 2272392833, 1839030562, 4259657740,
   2763975236, 1272893353, 4139469664, 3200236656, 681279174, 3936430074,
   3572445317, 76029189, 3654602809, 3873151461, 530742520, 3299628645,
   4096336452, 1126891415, 2878612391, 4237533241, 1700485571, 2399980690,
   4293915773, 2240044497, 1873313359, 4264355552, 2734768916, 1309151649,
   4149444226, 3174756917, 718787259, 3951481745]

/-- The 64 MD5 per-round left-rotation amounts (RFC 1321). -/
def md5S : List Nat :=
  [7, 12, 17, 22, 7, 12, 17, 22, 7, 12, 17, 22, 7, 12, 17, 22,
   5, 9, 14, 20, 5, 9, 14, 20, 5, 9, 14, 20, 5, 9, 14, 20,
   4, 11, 16, 23, 4, 11, 16, 23, 4, 11, 16, 23, 4, 11, 16, 23,
   6, 10, 15, 21, 6, 10, 15, 21, 6, 10, 15, 21, 6, 10, 15, 21]

/-- The MD5 nonlinear round function for step `i`. -/
def md5F (i b c d : Nat) : Nat :=
  if i < 16 then Nat.lor (Nat.land b c) (Nat.land (not32 b) d)
  else if i < 32 then Nat.lor (Nat.land d b) (Nat.land (not32 d) c)
  else if i < 48 then Nat.xor b (Nat.xor c d)
  else Nat.xor c (Nat.lor b (not32 d))

/-- The MD5 message-word index for step `i`. -/
def md5G (i : Nat) : Nat :=
  if i < 16 then i
  else if i < 32 then (5 * i + 1) % 16
  else if i < 48 then (3 * i + 5) % 16
  else (7 * i) % 16

/-- One step of the MD5 compression function over the 16 message words `w`. -/
def md5Step (w : List Nat) (st : Nat × Nat × Nat × Nat) (i : Nat) :
    Nat × Nat × Nat × Nat :=
  let (a, b, c, d) := st
  let f := add32 (add32 (add32 (md5F i b c d) a) (md5K.getD i 0)) (w.getD (md5G i) 0)
  (d, add32 b (rotl32 f (md5S.getD i 0)), b, c)

/-- Processing of one 512-bit block (given as 16 little-endian words). -/
def md5Block (st : Nat × Nat × Nat × Nat) (w : List Nat) : Nat × Nat × Nat × Nat :=
  let (a, b, c, d) := (List.range 64).foldl (md5Step w) st
  (add32 st.1 a, add32 st.2.1 b, add32 st.2.2.1 c, add32 st.2.2.2 d)

/-- Little-endian byte decomposition of the 64-bit message bit length. -/
def md5LenBytes (len : Nat) : List Nat :=
  (List.range 8).map (fun i => (8 * len / 2 ^ (8 * i)) % 256)

/-- MD5 padding: append `0x80`, zeros to 56 mod 64, then the 64-bit bit length. -/
def md5Pad (msg : List Nat) : List Nat :=
  msg ++ [128] ++ List.replicate ((119 - msg.length % 64) % 64) 0 ++ md5LenBytes msg.length

/-- Grouping of a byte list into little-endian 32-bit words. -/
def toWordsLE : List Nat → List Nat
  | b0 :: b1 :: b2 :: b3 :: rest =>
      (b0 + 256 * b1 + 65536 * b2 + 16777216 * b3) :: toWordsLE rest
  | _ => []

/-- Little-endian byte decomposition of a 32-bit word. -/
def wordLEBytes (x : Nat) : List Nat :=
  [x % 256, x / 256 % 256, x / 65536 % 256, x / 16777216 % 256]

/-- The 16-byte MD5 digest of a byte message (RFC 1321; `hashlib.md5`). -/
def md5Digest (msg : List Nat) : List Nat :=
  let padded := md5Pad msg
  let blocks := (List.range (padded.length / 64)).map
    (fun i => toWordsLE ((padded.drop (64 * i)).take 64))
  let st := blocks.foldl md5Block (1732584193, 4023233417, 2562383102, 271733878)
  wordLEBytes st.1 ++ wordLEBytes st.2.1 ++ wordLEBytes st.2.2.1 ++ wordLEBytes st.2.2.2

/-- Lowercase hexadecimal digit for a value below 16. -/
def hexChar (n : Nat) : Char :=
  if n < 10 then Char.ofNat (48 + n) else Char.ofNat (87 + n)

/-- Two lowercase hex characters of one byte. -/
def byteHexChars (b : Nat) : List Char := [hexChar (b / 16), hexChar (b % 16)]

/-- The lowercase hex representation of the MD5 digest
(`hashlib.md5(...).hexdigest()`). -/
def hexdigest (msg : List Nat) : String := String.mk ((md5Digest msg).flatMap byteHexChars)

/-- Numeric value of one hexadecimal character (used by `int(_, 16)`). -/
def hexVal (c : Char) : Nat :=
  if 48 ≤ c.toNat ∧ c.toNat ≤ 57 then c.toNat - 48
  else if 97 ≤ c.toNat ∧ c.toNat ≤ 102 then c.toNat - 87
  else if 65 ≤ c.toNat ∧ c.toNat ≤ 70 then c.toNat - 55
  else 0

/-- Parse of a hexadecimal string as an unsigned integer (`int(s, 16)` on the
always-valid hex input produced by `hexdigest`). -/
def parseHex (s : String) : Nat := s.data.foldl (fun acc c => 16 * acc + hexVal c) 0

/-- Character slice `s[:n]` (Python slicing is by characters). -/
def strTake (s : String) (n : Nat) : String := String.mk (s.data.take n)

/-- A calendar date in the proleptic Gregorian calendar (Python `datetime.date`). -/
structure CalendarDate where
  year : Nat
  month : Nat
  day : Nat
deriving DecidableEq

/-- Python `str.zfill(width)` on an unsigned digit string: left-pad with zeros up
to `width` (the inputs in this program never carry a sign prefix). -/
def zfill (width : Nat) (s : String) : String :=
  if width ≤ s.length then s
  else String.mk (List.replicate (width - s.length) '0') ++ s

/-- ISO-8601 rendering `YYYY-MM-DD` of a date (Python `date.isoformat()`). -/
def isoformat (d : CalendarDate) : String :=
  zfill 4 (Nat.repr d.year) ++ "-" ++ zfill 2 (Nat.repr d.month) ++ "-" ++
    zfill 2 (Nat.repr d.day)

/-- The daily selector of `get_daily_section` (src/app.py lines 116-126): ISO
date string, MD5, first 8 hex characters parsed as an unsigned integer, reduced
modulo 1000. -/
def select_code (today : CalendarDate) : Nat :=
  parseHex (strTake (hexdigest (strBytes (isoformat today))) 8) % 1000



/-- One row of the `full_classification` table, as the dict built by
`DDCDatabase.get_section` / `get_random_section` (src/ddc_helpers.py). -/
structure SectionRecord where
  section_code : String
  section_description : String
  division_code : String
  division_description : String
  main_class_code : String
  main_class_description : String
deriving DecidableEq

/-- Test that a character list starts with the given needle. -/
def charsStartWith : List Char → List Char → Bool
  | [], _ => true
  | _ :: _, [] => false
  | a :: as, b :: bs => a == b && charsStartWith as bs

/-- Test that a character list contains the given needle as a contiguous run. -/
def charsContain (needle : List Char) : List Char → Bool
  | [] => charsStartWith needle []
  | c :: cs => charsStartWith needle (c :: cs) || charsContain needle cs

/-- SQL `section_description NOT LIKE '%[Unassigned]%'` filter, as the positive
containment test. -/
def likeUnassigned (s : String) : Bool :=
  charsContain "[Unassigned]".data s.data

/-- The `full_classification` table of the read-only SQLite database, keyed by
`section_code`. -/
structure DDCDatabase where
  rows : List SectionRecord

/-- Embedding of `DDCDatabase.get_section`: the first row whose `section_code`
equals the queried code (`WHERE section_code = ?` with `fetchone`). -/
def DDCDatabase.get_section (db : DDCDatabase) (code : String) : Option SectionRecord :=
  db.rows.find? (fun r => r.section_code == code)

/-- Embedding of `DDCDatabase.get_random_section`; `ORDER BY RANDOM() LIMIT 1`
is modelled by the choice oracle `pick`, which returns some element of the
candidate list when it is nonempty and `none` when it is empty. -/
def DDCDatabase.get_random_section (db : DDCDatabase)
    (pick : List SectionRecord → Option SectionRecord)
    (exclude_unassigned : Bool) : Option SectionRecord :=
  if exclude_unassigned then
    pick (db.rows.filter (fun r => ! likeUnassigned r.section_description))
  else pick db.rows

/-- Embedding of `get_daily_section` (src/app.py lines 113-141), parameterised
over the two collaborator methods of the global `ddc_db` object; a raised
`Exception("No Section Found!")` is the `Except.error` value. -/
def get_daily_section (getSection : String → Option SectionRecord)
    (getRandom : Bool → Option SectionRecord)
    (today : CalendarDate) : Except String SectionRecord :=
  let section_code := Nat.repr (select_code today)
  match getSection section_code with
  | some s => .ok { s with section_code := zfill 3 section_code }
  | none =>
      match getRandom false with
      | some s => .ok { s with section_code := zfill 3 s.section_code }
      | none => .error "No Section Found!"

/-- `get_daily_section` run against a `DDCDatabase` (the app's `ddc_db`),
with `pick` standing for the SQL random ordering. -/
def get_daily_section_db (db : DDCDatabase)
    (pick : List SectionRecord → Option SectionRecord)
    (today : CalendarDate) : Except String SectionRecord :=
  get_daily_section db.get_section (db.get_random_section pick) today

/-- ASCII-letter test, the character class `[a-zA-Z]` of `mask_letters`. -/
def isAsciiAlpha (c : Char) : Bool :=
  (97 ≤ c.toNat && c.toNat ≤ 122) || (65 ≤ c.toNat && c.toNat ≤ 90)

/-- Left-to-right single-character substitution performed by
`re.sub(r"[a-zA-Z]", "_", text)`. -/
def subAlpha : List Char → List Char
  | [] => []
  | c :: cs => (if isAsciiAlpha c then '_' else c) :: subAlpha cs

/-- Embedding of `mask_letters` (src/app.py lines 144-146). -/
def mask_letters (text : String) : String := String.mk (subAlpha text.data)

/-- Embedding of the response body built by `get_daily_dewey`
(src/app.py lines 178-201): an insertion-ordered field list; `hint` is the
validated Python int. -/
def format_result (today : CalendarDate) (section_data : SectionRecord)
    (hint : Int) : List (String × String) :=
  let base := [("date", isoformat today),
               ("main_class", zfill 3 section_data.main_class_code),
               ("division", zfill 3 section_data.division_code),
               ("section", section_data.section_code)]
  let r1 := if 1 ≤ hint then
    base ++ [("main_class_description", section_data.main_class_description)] else base
  let r2 := if 2 ≤ hint then
    r1 ++ [("division_description", section_data.division_description)] else r1
  let r3 := if 3 ≤ hint then
    r2 ++ [("section_masked", mask_letters section_data.section_description)] else r2
  if 4 ≤ hint then
    r3 ++ [("section_description", section_data.section_description)] else r3

/-- Field names the spec prescribes at each hint level (base fields, then one
addition per level), used to compare the code's response shape with §4.2. -/
def specFieldNames (hint : Int) : List String :=
  ["date", "main_class", "division", "section"]
  ++ (if 1 ≤ hint then ["main_class_description"] else [])
  ++ (if 2 ≤ hint then ["division_description"] else [])
  ++ (if 3 ≤ hint then ["section_masked"] else [])
  ++ (if 4 ≤ hint then ["section_description"] else [])

/-- Decimal digits of a character list accumulated left to right; `none` on the
first non-digit. -/
def parseDigitsAux : List Char → Nat → Option Nat
  | [], acc => some acc
  | c :: cs, acc =>
      if 48 ≤ c.toNat ∧ c.toNat ≤ 57 then parseDigitsAux cs (10 * acc + (c.toNat - 48))
      else none

/-- Modelled from the spec: the integer parsing that FastAPI/pydantic applies to
the `hint` query parameter (library code, not under src/) — an optional sign
followed by one or more decimal digits; anything else is a non-integer value. -/
def parseQueryInt (s : String) : Option Int :=
  match s.data with
  | [] => none
  | '-' :: rest =>
      if rest = [] then none else (parseDigitsAux rest 0).map (fun n => -(n : Int))
  | '+' :: rest =>
      if rest = [] then none else (parseDigitsAux rest 0).map (fun n => (n : Int))
  | l => (parseDigitsAux l 0).map (fun n => (n : Int))

/-- Modelled from the spec: validation of `hint: int = Query(0, ge=0, le=4)`
(src/app.py line 152) as performed by FastAPI before the handler body runs —
absent parameter defaults to 0, a non-integer or out-of-range value is a 422
validation error. -/
def validate_hint (param : Option String) : Except Unit Int :=
  match param with
  | none => .ok 0
  | some s =>
      match parseQueryInt s with
      | none => .error ()
      | some n => if 0 ≤ n ∧ n ≤ 4 then .ok n else .error ()

/-- An instant of UTC time at microsecond resolution (Python aware `datetime`):
its calendar date, seconds since that date's midnight, and microseconds. -/
structure Instant where
  date : CalendarDate
  sec : Nat
  usec : Nat
deriving DecidableEq

/-- Gregorian leap-year test (Python `calendar`/`datetime` rules). -/
def isLeapYear (y : Nat) : Bool :=
  (y % 4 == 0 && y % 100 != 0) || y % 400 == 0

/-- Number of days in a month of the proleptic Gregorian calendar. -/
def daysInMonth (y m : Nat) : Nat :=
  if m = 2 then (if isLeapYear y then 29 else 28)
  else if m = 4 ∨ m = 6 ∨ m = 9 ∨ m = 11 then 30
  else 31

/-- The calendar day after `d`; `(now + timedelta(days=1)).date()` keeps the
time of day, so its date is the next calendar day. -/
def nextDay (d : CalendarDate) : CalendarDate :=
  if d.day < daysInMonth d.year d.month then ⟨d.year, d.month, d.day + 1⟩
  else if d.month < 12 then ⟨d.year, d.month + 1, 1⟩
  else ⟨d.year + 1, 1, 1⟩

/-- Day of week of a Gregorian date, 0 = Sunday (Sakamoto's method, agreeing
with Python `date.strftime("%a")`). -/
def dayOfWeek (d : CalendarDate) : Nat :=
  let t := [0, 3, 2, 5, 0, 3, 5, 1, 4, 6, 2, 4]
  let y := if d.month < 3 then d.year - 1 else d.year
  (y + y / 4 - y / 100 + y / 400 + t.getD (d.month - 1) 0 + d.day) % 7

/-- Abbreviated weekday names of `strftime("%a")` in the C locale. -/
def weekdayAbbr : List String :=
  ["Sun", "Mon", "Tue", "Wed", "Thu", "Fri", "Sat"]

/-- Abbreviated month names of `strftime("%b")` in the C locale. -/
def monthAbbr : List String :=
  ["Jan", "Feb", "Mar", "Apr", "May", "Jun", "Jul", "Aug", "Sep", "Oct", "Nov", "Dec"]

/-- Rendering of midnight of date `d` by
`strftime("%a, %d %b %Y %H:%M:%S GMT")` (src/app.py line 216) — the RFC 1123
layout used for the `Expires` header. -/
def httpDateMidnight (d : CalendarDate) : String :=
  weekdayAbbr.getD (dayOfWeek d) "" ++ ", " ++ zfill 2 (Nat.repr d.day) ++ " " ++
    monthAbbr.getD (d.month - 1) "" ++ " " ++ zfill 4 (Nat.repr d.year) ++
    " 00:00:00 GMT"

/-- The value `int((midnight - now).total_seconds())` of src/app.py lines
207-211: the microsecond difference to the next midnight, truncated to seconds
(exact integer arithmetic; the float `total_seconds` is faithful at this
magnitude and the difference is positive, so `int` truncation is floor). -/
def seconds_until_midnight (t : Instant) : Nat :=
  (86400 * 1000000 - (t.sec * 1000000 + t.usec)) / 1000000

/-- The four response headers set by `get_daily_dewey`
(src/app.py lines 205-218), in order. -/
def cache_headers (t : Instant) : List (String × String) :=
  [("Cache-Control",
      "public, max-age=" ++ Nat.repr (seconds_until_midnight t) ++ ", immutable"),
   ("Expires", httpDateMidnight (nextDay t.date)),
   ("X-Content-Type-Options", "nosniff"),
   ("Vary", "hint")]

/-- Outcome of one `GET /daily` request: 200 with body and headers, 422 from
parameter validation, or 500 from an unhandled exception. -/
inductive HTTPResponse where
  | ok (body : List (String × String)) (headers : List (String × String))
  | unprocessable
  | serverError (msg : String)
deriving DecidableEq

/-- Embedding of the `GET /daily` endpoint (src/app.py lines 149-220):
validation of `hint` happens before the handler body, so a 422 is produced
without consulting the collaborators; then today's record is fetched, the body
shaped by hint level, and the caching headers attached. -/
def daily_endpoint (getSection : String → Option SectionRecord)
    (getRandom : Bool → Option SectionRecord)
    (now : Instant) (hintParam : Option String) : HTTPResponse :=
  match validate_hint hintParam with
  | .error () => .unprocessable
  | .ok hint =>
      match get_daily_section getSection getRandom now.date with
      | .error msg => .serverError msg
      | .ok section_data => .ok (format_result now.date section_data hint) (cache_headers now)

/-! Helper lemmas. -/

theorem subAlpha_length (l : List Char) : (subAlpha l).length = l.length := by
  induction l with
  | nil => rfl
  | cons c cs ih => simp [subAlpha, ih]

theorem subAlpha_getElem (l : List Char) (i : Nat) :
    (subAlpha l)[i]? = (l[i]?).map (fun c => if isAsciiAlpha c then '_' else c) := by
  induction l generalizing i with
  | nil => simp [subAlpha]
  | cons c cs ih =>
      cases i with
      | zero => simp [subAlpha]
      | succ n => simpa [subAlpha] using ih n

theorem isAsciiAlpha_underscore : isAsciiAlpha '_' = false := by decide

theorem subAlpha_idem (l : List Char) : subAlpha (subAlpha l) = subAlpha l := by
  induction l with
  | nil => rfl
  | cons c cs ih =>
      by_cases h : isAsciiAlpha c <;>
        simp [subAlpha, h, ih, isAsciiAlpha_underscore]

/-- The claim C1: the selector derives the daily code from the ISO date string
via MD5, first 8 hex digits, modulo 1000 (this is the definition of
`select_code`, taken from src/app.py lines 116-126), and the result always lies
in [0, 999]. -/
theorem C1_select_code_range : ∀ today : CalendarDate, select_code today ≤ 999 := by
  intro today
  have h : select_code today < 1000 := Nat.mod_lt _ (by norm_num)
  omega

/-- The claim C4: masking preserves length, sends exactly the ASCII letters to
underscores while leaving every other character in place, and maps the spec's
example string to its masked form. -/
theorem C4_mask_letters_correct :
    (∀ (s : String) (i : Nat),
        (mask_letters s).data[i]? =
          (s.data[i]?).map (fun c => if isAsciiAlpha c then '_' else c))
    ∧ (∀ s : String, (mask_letters s).length = s.length)
    ∧ mask_letters "Computer science, 2nd ed." = "________ _______, 2__ __." := by
  refine ⟨fun s i => ?_, fun s => ?_, by decide⟩
  · exact subAlpha_getElem s.data i
  · show (subAlpha s.data).length = s.data.length
    exact subAlpha_length s.data

/-- The claim C10: `mask_letters` is idempotent, because an underscore is not an
ASCII letter and non-letters pass through unchanged. -/
theorem C10_mask_letters_idempotent :
    ∀ s : String, mask_letters (mask_letters s) = mask_letters s := by
  intro s
  simp [mask_letters, subAlpha_idem]

theorem assoc_val_unique {α β : Type} [DecidableEq α] {l : List (α × β)}
    (h : (l.map Prod.fst).Nodup) {k : α} {v v' : β}
    (h1 : (k, v) ∈ l) (h2 : (k, v') ∈ l) : v = v' := by
  induction l with
  | nil => simp at h1
  | cons p ps ih =>
      rw [List.map_cons, List.nodup_cons] at h
      rcases List.mem_cons.mp h1 with e1 | m1
      · rcases List.mem_cons.mp h2 with e2 | m2
        · rw [← e1] at e2
          exact (Prod.mk.injEq _ _ _ _).mp e2 |>.2.symm
        · have hk : k ∈ ps.map Prod.fst := List.mem_map_of_mem Prod.fst m2
          rw [← e1] at h
          exact absurd hk h.1
      · rcases List.mem_cons.mp h2 with e2 | m2
        · have hk : k ∈ ps.map Prod.fst := List.mem_map_of_mem Prod.fst m1
          rw [← e2] at h
          exact absurd hk h.1
        · exact ih h.2 m1 m2

theorem format_result_append (t : CalendarDate) (r : SectionRecord) {i j : Int}
    (h0 : 0 ≤ i) (hij : i < j) (hj : j ≤ 4) :
    ∃ rest, format_result t r j = format_result t r i ++ rest := by
  have h4 : i ≤ 4 := le_of_lt (lt_of_lt_of_le hij hj)
  have hj0 : 0 ≤ j := le_of_lt (lt_of_le_of_lt h0 hij)
  interval_cases i <;> interval_cases j <;> norm_num [format_result]

theorem format_result_keys (t : CalendarDate) (r : SectionRecord) {h : Int}
    (h0 : 0 ≤ h) (h4 : h ≤ 4) :
    (format_result t r h).map Prod.fst = specFieldNames h := by
  interval_cases h <;> norm_num [format_result, specFieldNames]

theorem format_result_keys_nodup (t : CalendarDate) (r : SectionRecord) {h : Int}
    (h0 : 0 ≤ h) (h4 : h ≤ 4) :
    ((format_result t r h).map Prod.fst).Nodup := by
  rw [format_result_keys t r h0 h4]
  interval_cases h <;> decide

/-- The claim C3: disclosure is cumulative — for hint levels `i < j` in {0..4}
every field of the level-`i` response appears with the same value in the
level-`j` response, and the field list at each level is the base quadruple
`date, main_class, division, section` plus one addition per level
(`main_class_description`, `division_description`, `section_masked`,
`section_description`). -/
theorem C3_cumulative_disclosure (t : CalendarDate) (r : SectionRecord) (i j : Int)
    (h0 : 0 ≤ i) (hij : i < j) (hj : j ≤ 4) :
    (∀ p, p ∈ format_result t r i → p ∈ format_result t r j)
    ∧ (∀ k v v', (k, v) ∈ format_result t r i → (k, v') ∈ format_result t r j → v = v')
    ∧ (format_result t r i).map Prod.fst = specFieldNames i
    ∧ (format_result t r j).map Prod.fst = specFieldNames j := by
  obtain ⟨rest, hrest⟩ := format_result_append t r h0 hij hj
  have hj0 : 0 ≤ j := le_of_lt (lt_of_le_of_lt h0 hij)
  have h4 : i ≤ 4 := le_of_lt (lt_of_lt_of_le hij hj)
  refine ⟨fun p hp => ?_, fun k v v' h1 h2 => ?_, format_result_keys t r h0 h4,
    format_result_keys t r hj0 hj⟩
  · rw [hrest]; exact List.mem_append_left rest hp
  · refine assoc_val_unique (format_result_keys_nodup t r hj0 hj) ?_ h2
    rw [hrest]; exact List.mem_append_left rest h1

/-- Witness for C3 at hint levels 0 and 4 on a concrete record and date. -/
theorem C3_cumulative_disclosure_witness :
    (∀ p, p ∈ format_result ⟨2024, 1, 1⟩
        ⟨"004", "Data processing", "000", "Computer science", "000",
          "Generalities"⟩ 0 →
      p ∈ format_result ⟨2024, 1, 1⟩
        ⟨"004", "Data processing", "000", "Computer science", "000",
          "Generalities"⟩ 4)
    ∧ (∀ k v v', (k, v) ∈ format_result ⟨2024, 1, 1⟩
        ⟨"004", "Data processing", "000", "Computer science", "000",
          "Generalities"⟩ 0 →
        (k, v') ∈ format_result ⟨2024, 1, 1⟩
        ⟨"004", "Data processing", "000", "Computer science", "000",
          "Generalities"⟩ 4 → v = v')
    ∧ (format_result ⟨2024, 1, 1⟩
        ⟨"004", "Data processing", "000", "Computer science", "000",
          "Generalities"⟩ 0).map Prod.fst = specFieldNames 0
    ∧ (format_result ⟨2024, 1, 1⟩
        ⟨"004", "Data processing", "000", "Computer science", "000",
          "Generalities"⟩ 4).map Prod.fst = specFieldNames 4 :=
  C3_cumulative_disclosure ⟨2024, 1, 1⟩
    ⟨"004", "Data processing", "000", "Computer science", "000", "Generalities"⟩
    0 4 (by norm_num) (by norm_num) (by norm_num)

theorem repr_length_le (n : Nat) (h : n < 1000) : (Nat.repr n).length ≤ 3 := by
  revert n
  decide

theorem zfill_length (w : Nat) (s : String) (h : s.length ≤ w) :
    (zfill w s).length = w := by
  unfold zfill
  split
  · omega
  · rw [String.length_append]
    show (List.replicate (w - s.length) '0').length + s.length = w
    rw [List.length_replicate]
    omega

theorem format_result_base (t : CalendarDate) (r : SectionRecord) (h : Int) :
    ∃ rest, format_result t r h =
      [("date", isoformat t), ("main_class", zfill 3 r.main_class_code),
       ("division", zfill 3 r.division_code), ("section", r.section_code)] ++ rest := by
  simp only [format_result]
  split <;> split <;> split <;> split <;> simp

/-- Counterexample to C2 as stated: on 2024-10-05 the derived code is 2, the
collaborator is queried with the unpadded string `"2"`, and a store whose only
record is keyed by the zero-padded `"002"` is never found — the request falls
through to the empty fallback and errors. -/
theorem C2_counterexample :
    select_code ⟨2024, 10, 5⟩ = 2
    ∧ Nat.repr (select_code ⟨2024, 10, 5⟩) = "2"
    ∧ Nat.repr (select_code ⟨2024, 10, 5⟩) ≠ "002"
    ∧ get_daily_section
        (fun k => if k = "002" then
          some ⟨"002", "d", "000", "dd", "000", "m"⟩ else none)
        (fun _ => none) ⟨2024, 10, 5⟩ = .error "No Section Found!" := by
  refine ⟨by decide, by decide, by decide, by rfl⟩

/-- The claim C2 as amended: the selector queries the collaborator with the
unpadded decimal string of the derived code (so the lookup outcome depends on
that key alone), and the zero-padded 3-digit form is written into the record's
`section_code` only after a successful lookup. -/
theorem C2_unpadded_query (today : CalendarDate)
    (gs₁ gs₂ : String → Option SectionRecord) (gr : Bool → Option SectionRecord)
    (h : gs₁ (Nat.repr (select_code today)) = gs₂ (Nat.repr (select_code today))) :
    get_daily_section gs₁ gr today = get_daily_section gs₂ gr today
    ∧ (∀ r, gs₁ (Nat.repr (select_code today)) = some r →
        get_daily_section gs₁ gr today =
          .ok { r with section_code := zfill 3 (Nat.repr (select_code today)) }) := by
  constructor
  · simp only [get_daily_section]
    rw [h]
  · intro r hr
    simp only [get_daily_section, hr]

/-- Witness for the amended C2 at a concrete date and store. -/
theorem C2_unpadded_query_witness :
    get_daily_section (fun _ => some ⟨"1", "a", "b", "c", "d", "e"⟩)
        (fun _ => none) ⟨2024, 1, 1⟩ =
      get_daily_section (fun _ => some ⟨"1", "a", "b", "c", "d", "e"⟩)
        (fun _ => none) ⟨2024, 1, 1⟩
    ∧ (∀ r, (fun _ : String => some (⟨"1", "a", "b", "c", "d", "e"⟩ : SectionRecord))
          (Nat.repr (select_code ⟨2024, 1, 1⟩)) = some r →
        get_daily_section (fun _ => some ⟨"1", "a", "b", "c", "d", "e"⟩)
            (fun _ => none) ⟨2024, 1, 1⟩ =
          .ok { r with section_code := zfill 3 (Nat.repr (select_code ⟨2024, 1, 1⟩)) }) :=
  C2_unpadded_query ⟨2024, 1, 1⟩ _ _ _ rfl

/-- The claim C5: when the primary code lookup misses, `get_daily_section`
falls back to one arbitrary-record request with `exclude_unassigned = False`
(the unfiltered row list of the store), returning that record; when the
fallback also yields nothing the call raises, which the endpoint surfaces as an
unrecoverable 500-class `serverError` with no further fallback. -/
theorem C5_fallback (gs : String → Option SectionRecord)
    (gr : Bool → Option SectionRecord) (today : CalendarDate)
    (hmiss : gs (Nat.repr (select_code today)) = none) :
    (∀ r, gr false = some r →
        get_daily_section gs gr today =
          .ok { r with section_code := zfill 3 r.section_code })
    ∧ (gr false = none →
        get_daily_section gs gr today = .error "No Section Found!")
    ∧ (∀ db pick, (∀ b, gr b = DDCDatabase.get_random_section db pick b) →
        gr false = pick db.rows)
    ∧ (gr false = none → ∀ (now : Instant) (p : Option String) (n : Int),
        now.date = today → validate_hint p = .ok n →
        daily_endpoint gs gr now p = .serverError "No Section Found!") := by
  have herr : gr false = none →
      get_daily_section gs gr today = .error "No Section Found!" := by
    intro hnone
    simp only [get_daily_section, hmiss, hnone]
  refine ⟨fun r hr => ?_, herr, fun db pick hdb => ?_, fun hnone now p n hd hv => ?_⟩
  · simp only [get_daily_section, hmiss, hr]
  · rw [hdb false]
    simp [DDCDatabase.get_random_section]
  · simp only [daily_endpoint, hv, hd, herr hnone]

/-- Witness for C5 on a concrete empty-primary store with a one-record
fallback. -/
theorem C5_fallback_witness :
    (∀ r, (fun _ : Bool => some (⟨"7", "a", "b", "c", "d", "e"⟩ : SectionRecord))
          false = some r →
        get_daily_section (fun _ => none)
            (fun _ => some ⟨"7", "a", "b", "c", "d", "e"⟩) ⟨2024, 1, 1⟩ =
          .ok { r with section_code := zfill 3 r.section_code })
    ∧ ((fun _ : Bool => some (⟨"7", "a", "b", "c", "d", "e"⟩ : SectionRecord))
          false = none →
        get_daily_section (fun _ => none)
            (fun _ => some ⟨"7", "a", "b", "c", "d", "e"⟩) ⟨2024, 1, 1⟩ =
          .error "No Section Found!")
    ∧ (∀ db pick,
        (∀ b, (fun _ : Bool => some (⟨"7", "a", "b", "c", "d", "e"⟩ : SectionRecord)) b
            = DDCDatabase.get_random_section db pick b) →
        (fun _ : Bool => some (⟨"7", "a", "b", "c", "d", "e"⟩ : SectionRecord)) false
          = pick db.rows)
    ∧ ((fun _ : Bool => some (⟨"7", "a", "b", "c", "d", "e"⟩ : SectionRecord))
          false = none → ∀ (now : Instant) (p : Option String) (n : Int),
        now.date = ⟨2024, 1, 1⟩ → validate_hint p = .ok n →
        daily_endpoint (fun _ => none)
            (fun _ => some ⟨"7", "a", "b", "c", "d", "e"⟩) now p =
          .serverError "No Section Found!") :=
  C5_fallback (fun _ => none) (fun _ => some ⟨"7", "a", "b", "c", "d", "e"⟩)
    ⟨2024, 1, 1⟩ rfl

/-- The claim C9: on a primary-lookup hit the returned record keeps the five
non-key fields exactly as stored; only `section_code` is rewritten. -/
theorem C9_primary_hit_frame (gs : String → Option SectionRecord)
    (gr : Bool → Option SectionRecord) (today : CalendarDate) (r : SectionRecord)
    (hhit : gs (Nat.repr (select_code today)) = some r) :
    ∃ sd, get_daily_section gs gr today = .ok sd
      ∧ sd.section_description = r.section_description
      ∧ sd.division_code = r.division_code
      ∧ sd.division_description = r.division_description
      ∧ sd.main_class_code = r.main_class_code
      ∧ sd.main_class_description = r.main_class_description
      ∧ sd.section_code = zfill 3 (Nat.repr (select_code today)) := by
  refine ⟨{ r with section_code := zfill 3 (Nat.repr (select_code today)) },
    ?_, rfl, rfl, rfl, rfl, rfl, rfl⟩
  simp only [get_daily_section, hhit]

/-- Witness for C9 at a concrete date and store. -/
theorem C9_primary_hit_frame_witness :
    ∃ sd, get_daily_section (fun _ => some ⟨"9", "a", "b", "c", "d", "e"⟩)
        (fun _ => none) ⟨2024, 1, 1⟩ = .ok sd
      ∧ sd.section_description = "a"
      ∧ sd.division_code = "b"
      ∧ sd.division_description = "c"
      ∧ sd.main_class_code = "d"
      ∧ sd.main_class_description = "e"
      ∧ sd.section_code = zfill 3 (Nat.repr (select_code ⟨2024, 1, 1⟩)) :=
  C9_primary_hit_frame (fun _ => some ⟨"9", "a", "b", "c", "d", "e"⟩)
    (fun _ => none) ⟨2024, 1, 1⟩ ⟨"9", "a", "b", "c", "d", "e"⟩ rfl

/-- The claim C8: in a successful response the `main_class`, `division` and
`section` fields are the stored codes left-padded with `0` to exactly 3
characters (given codes stored at most 3 characters wide, as the data model
prescribes), and a primary-lookup hit has its `section_code` overwritten with
the zero-padded query code. -/
theorem C8_zero_padding (gs : String → Option SectionRecord)
    (gr : Bool → Option SectionRecord) (today : CalendarDate) (hint : Int)
    (sd : SectionRecord)
    (hok : get_daily_section gs gr today = .ok sd)
    (hgr : ∀ r, gr false = some r → r.section_code.length ≤ 3)
    (hmc : sd.main_class_code.length ≤ 3) (hdv : sd.division_code.length ≤ 3) :
    (("main_class", zfill 3 sd.main_class_code) ∈ format_result today sd hint
      ∧ (zfill 3 sd.main_class_code).length = 3)
    ∧ (("division", zfill 3 sd.division_code) ∈ format_result today sd hint
      ∧ (zfill 3 sd.division_code).length = 3)
    ∧ (("section", sd.section_code) ∈ format_result today sd hint
      ∧ sd.section_code.length = 3)
    ∧ (∀ r, gs (Nat.repr (select_code today)) = some r →
        sd = { r with section_code := zfill 3 (Nat.repr (select_code today)) }) := by
  obtain ⟨rest, hb⟩ := format_result_base today sd hint
  have hkey : (Nat.repr (select_code today)).length ≤ 3 :=
    repr_length_le _ (Nat.mod_lt _ (by norm_num))
  have hsec : sd.section_code.length = 3 := by
    simp only [get_daily_section] at hok
    cases hgs : gs (Nat.repr (select_code today)) with
    | some r =>
        rw [hgs] at hok
        simp only [Except.ok.injEq] at hok
        rw [← hok]
        exact zfill_length 3 _ hkey
    | none =>
        rw [hgs] at hok
        cases hgr' : gr false with
        | some r =>
            rw [hgr'] at hok
            simp only [Except.ok.injEq] at hok
            rw [← hok]
            exact zfill_length 3 _ (hgr r hgr')
        | none =>
            rw [hgr'] at hok
            simp at hok
  refine ⟨⟨?_, zfill_length 3 _ hmc⟩, ⟨?_, zfill_length 3 _ hdv⟩, ⟨?_, hsec⟩,
    fun r hr => ?_⟩
  · rw [hb]; exact List.mem_append_left rest (by simp)
  · rw [hb]; exact List.mem_append_left rest (by simp)
  · rw [hb]; exact List.mem_append_left rest (by simp)
  · simp only [get_daily_section, hr, Except.ok.injEq] at hok
    exact hok.symm

/-- Witness for C8 at a concrete date, store and hint level. -/
theorem C8_zero_padding_witness :
    (("main_class", zfill 3 "d") ∈
        format_result ⟨2024, 1, 1⟩ ⟨"417", "a", "b", "c", "d", "e"⟩ 0
      ∧ (zfill 3 "d").length = 3)
    ∧ (("division", zfill 3 "b") ∈
        format_result ⟨2024, 1, 1⟩ ⟨"417", "a", "b", "c", "d", "e"⟩ 0
      ∧ (zfill 3 "b").length = 3)
    ∧ (("section", "417") ∈
        format_result ⟨2024, 1, 1⟩ ⟨"417", "a", "b", "c", "d", "e"⟩ 0
      ∧ ("417" : String).length = 3)
    ∧ (∀ r, (fun _ : String => some (⟨"9", "a", "b", "c", "d", "e"⟩ : SectionRecord))
          (Nat.repr (select_code ⟨2024, 1, 1⟩)) = some r →
        (⟨"417", "a", "b", "c", "d", "e"⟩ : SectionRecord) =
          { r with section_code := zfill 3 (Nat.repr (select_code ⟨2024, 1, 1⟩)) }) :=
  C8_zero_padding (fun _ => some ⟨"9", "a", "b", "c", "d", "e"⟩) (fun _ => none)
    ⟨2024, 1, 1⟩ 0 ⟨"417", "a", "b", "c", "d", "e"⟩ (by rfl)
    (fun r h => by simp at h) (by decide) (by decide)

/-- The claim C6: the `hint` query parameter defaults to 0 when absent; a value
parsing to an integer is accepted exactly when it lies in 0..4 (in particular
0,1,2,3,4 are accepted and -1, 5 rejected); a non-integer value such as "abc"
is rejected; and a rejected request is answered 422 without consulting the
lookup collaborators (the response is the same whatever store or clock is
behind the endpoint). -/
theorem C6_hint_validation :
    validate_hint none = .ok 0
    ∧ (∀ s n, parseQueryInt s = some n →
        validate_hint (some s) = (if 0 ≤ n ∧ n ≤ 4 then .ok n else .error ()))
    ∧ (∀ s, parseQueryInt s = none → validate_hint (some s) = .error ())
    ∧ (validate_hint (some "0") = .ok 0 ∧ validate_hint (some "1") = .ok 1
      ∧ validate_hint (some "2") = .ok 2 ∧ validate_hint (some "3") = .ok 3
      ∧ validate_hint (some "4") = .ok 4)
    ∧ (validate_hint (some "-1") = .error () ∧ validate_hint (some "5") = .error ()
      ∧ validate_hint (some "abc") = .error ())
    ∧ (∀ p, validate_hint p = .error () →
        ∀ gs gr gs' gr' (now now' : Instant),
          daily_endpoint gs gr now p = .unprocessable
          ∧ daily_endpoint gs gr now p = daily_endpoint gs' gr' now' p) := by
  refine ⟨rfl, fun s n h => ?_, fun s h => ?_,
    ⟨rfl, rfl, rfl, rfl, rfl⟩, ⟨rfl, rfl, rfl⟩, fun p hv gs gr gs' gr' now now' => ?_⟩
  · simp only [validate_hint, h]
  · simp only [validate_hint, h]
  · constructor
    · simp only [daily_endpoint, hv]
    · simp only [daily_endpoint, hv]

/-- Witness for C6 on the non-integer input "abc" against a concrete store. -/
theorem C6_hint_validation_witness :
    validate_hint (some "abc") = .error ()
    ∧ daily_endpoint (fun _ => none) (fun _ => none)
        ⟨⟨2024, 1, 1⟩, 0, 0⟩ (some "abc") = .unprocessable :=
  ⟨C6_hint_validation.2.2.1 "abc" rfl,
    (C6_hint_validation.2.2.2.2.2 (some "abc")
      (C6_hint_validation.2.2.1 "abc" rfl)
      (fun _ => none) (fun _ => none) (fun _ => none) (fun _ => none)
      ⟨⟨2024, 1, 1⟩, 0, 0⟩ ⟨⟨2024, 1, 1⟩, 0, 0⟩).1⟩

/-- The claim C7: every successful `GET /daily` response carries exactly the
four headers `Cache-Control: public, max-age=<n>, immutable` with `n` the
number of whole seconds from the request instant to the next UTC midnight
(characterised as the floor of the exact microsecond difference),
`Expires` at the next UTC midnight in the RFC 1123 `strftime` layout,
`X-Content-Type-Options: nosniff` and `Vary: hint`, recomputed from the
request's own instant. -/
theorem C7_cache_headers (t : Instant) (hs : t.sec < 86400) (hu : t.usec < 1000000) :
    cache_headers t =
      [("Cache-Control",
          "public, max-age=" ++ Nat.repr (seconds_until_midnight t) ++ ", immutable"),
       ("Expires", httpDateMidnight (nextDay t.date)),
       ("X-Content-Type-Options", "nosniff"),
       ("Vary", "hint")]
    ∧ seconds_until_midnight t * 1000000 ≤ 86400 * 1000000 - (t.sec * 1000000 + t.usec)
    ∧ 86400 * 1000000 - (t.sec * 1000000 + t.usec) <
        (seconds_until_midnight t + 1) * 1000000
    ∧ (∀ gs gr p body hd, daily_endpoint gs gr t p = .ok body hd →
        hd = cache_headers t) := by
  refine ⟨rfl, ?_, ?_, fun gs gr p body hd h => ?_⟩
  · unfold seconds_until_midnight
    omega
  · unfold seconds_until_midnight
    omega
  · simp only [daily_endpoint] at h
    cases hv : validate_hint p with
    | error e =>
        cases e
        rw [hv] at h
        simp at h
    | ok n =>
        rw [hv] at h
        cases hg : get_daily_section gs gr t.date with
        | error m =>
            rw [hg] at h
            simp at h
        | ok sd =>
            rw [hg] at h
            simp only [HTTPResponse.ok.injEq] at h
            exact h.2.symm

/-- Witness for C7 at a concrete instant one hour and half a second into
2024-01-01. -/
theorem C7_cache_headers_witness :
    cache_headers ⟨⟨2024, 1, 1⟩, 3600, 500000⟩ =
      [("Cache-Control",
          "public, max-age=" ++
            Nat.repr (seconds_until_midnight ⟨⟨2024, 1, 1⟩, 3600, 500000⟩) ++
            ", immutable"),
       ("Expires", httpDateMidnight (nextDay ⟨2024, 1, 1⟩)),
       ("X-Content-Type-Options", "nosniff"),
       ("Vary", "hint")]
    ∧ seconds_until_midnight ⟨⟨2024, 1, 1⟩, 3600, 500000⟩ * 1000000 ≤
        86400 * 1000000 - (3600 * 1000000 + 500000)
    ∧ 86400 * 1000000 - (3600 * 1000000 + 500000) <
        (seconds_until_midnight ⟨⟨2024, 1, 1⟩, 3600, 500000⟩ + 1) * 1000000
    ∧ (∀ gs gr p body hd,
        daily_endpoint gs gr ⟨⟨2024, 1, 1⟩, 3600, 500000⟩ p = .ok body hd →
        hd = cache_headers ⟨⟨2024, 1, 1⟩, 3600, 500000⟩) :=
  C7_cache_headers ⟨⟨2024, 1, 1⟩, 3600, 500000⟩ (by decide) (by decide)
